import Mathlib

/-!
# Transfer Registration wizard — shallow embedding

A shallow embedding of `transferRegistration.js`, the Lightning Web
Component that drives a three-path wizard (Cancellation / Substitution /
Transfer) over a registration record. State fields mirror the component's
`@track` fields; each event handler becomes a pure function from the
wizard state (plus, for asynchronous handlers, the external collaborator's
response passed as an explicit `Except` argument) to the new state and the
list of toasts the handler dispatches.

Modelling conventions:

* Steps and change types are the string literals the component uses
  (`currentStep ∈ {"0",…,"4"}`, `changeType ∈ {"", "Cancellation",
  "Substitution", "Transfer"}`).
* Currency amounts are `Int` (the component only subtracts and compares
  them; floating-point representation is irrelevant to the claims).
* Amount-bearing input fields can hold either a numeric value or the
  empty/null value an input control yields when cleared.  `JsVal` models
  exactly these: `JsVal.empty` stands for `''`/`null`/`undefined` and
  `JsVal.num n` for a numeric value (a numeric string from an input
  behaves as its numeric value in every expression the component applies
  to these fields, so the two are conflated).
* JavaScript truthiness and the `x || d` default idiom are made explicit
  (`truthy`, `orFalsyI`, `orFalsyS`).
* Fields the component initialises to `{}` and only ever tests for member
  presence are modelled as `Option` of a structure, `none` for the empty
  object.
-/

/-- A value an amount-bearing form field can hold: `empty` for
`''`/`null`/`undefined`, `num n` for a numeric value. -/
inductive JsVal where
  | empty : JsVal
  | num : Int → JsVal
deriving DecidableEq

/-- JavaScript truthiness of a `JsVal`: `''`/`null`/`undefined` and `0`
are falsy, any other number is truthy. -/
def JsVal.truthy : JsVal → Bool
  | .empty => false
  | .num n => n != 0

/-- JavaScript `Number(x)` on the values our fields hold: numbers are
themselves, `''`/`null` coerce to `0`. -/
def JsVal.toNumber : JsVal → Int
  | .empty => 0
  | .num n => n

/-- The JavaScript `a || b` default idiom on an optional number: `b` when
`a` is absent or falsy (i.e. `0`), else the value of `a`. -/
def orFalsyI (a : Option Int) (b : Int) : Int :=
  match a with
  | some n => if n = 0 then b else n
  | none => b

/-- The JavaScript `a || b` default idiom on an optional string: `b` when
`a` is absent or the empty string, else `a`. -/
def orFalsyS (a : Option String) (b : String) : String :=
  match a with
  | some s => if s = "" then b else s
  | none => b

/-- A toast notification as dispatched by `showToast(title, message,
variant)`. -/
structure Toast where
  title : String
  message : String
  variant : String
deriving DecidableEq

/-- The attendee record of the init payload (`initData.attendee`); only
the fields the component reads. `evt_Event` is the lookup
`evt__Event__c` to the current program. -/
structure Attendee where
  Id : String
  Name : String
  evt_First_Name : Option String
  evt_Last_Name : Option String
  evt_Event : Option String
deriving DecidableEq

/-- The originating Opportunity of the init payload
(`initData.originalOpp`); only the fields the component reads. -/
structure OriginalOpp where
  Id : String
  Amount : Option Int
  Payment_Status : Option String
  Has_Parent_Opportunity : Option String
deriving DecidableEq

/-- The init payload returned by `getInitData`.  `none` components model
absent members of the loaded object (and of the pre-load `{}`). -/
structure InitData where
  attendee : Option Attendee
  originalOpp : Option OriginalOpp
  discountTotal : Option Int
  originalProgramFeeTotal : Option Int
deriving DecidableEq

/-- The empty object `{}` the component holds in `initData` before the
init load resolves. -/
def InitData.empty : InitData :=
  { attendee := none, originalOpp := none, discountTotal := none
    originalProgramFeeTotal := none }

/-- A catalog row of `availablePrograms` (an `evt__Special_Event__c`
record); only the fields the component reads. -/
structure ProgramRow where
  Id : String
  Name : String
  Expected_Program_Fee : Option Int
deriving DecidableEq

/-- The transfer-fee pricebook entry inside the program-detail payload
(`programDetails.transferFeePBE`). -/
structure TransferFeePBE where
  UnitPrice : Option Int
deriving DecidableEq

/-- The payload returned by `getProgramDetails`. -/
structure ProgramDetails where
  expectedProgramFee : Option Int
  transferFeePBE : Option TransferFeePBE
deriving DecidableEq

/-- A contact search hit (`contactSearchResults` element); only the
fields the component reads. -/
structure ContactHit where
  id : String
  name : String
deriving DecidableEq

/-- A JavaScript error value as seen by `extractErrorMessage`: either a
plain string or an object that may carry `body.message` and `message`
members. -/
structure ErrBody where
  message : Option String
deriving DecidableEq

/-- The object form of a JavaScript error (`{ body?: { message? },
message? }`). -/
structure ErrObj where
  body : Option ErrBody
  message : Option String
deriving DecidableEq

/-- An error reaching a `catch` block: a string or an error object. -/
inductive JsError where
  | str : String → JsError
  | obj : ErrObj → JsError
deriving DecidableEq

/-- The result payload of `executeTransfer` / `executeSubstitution`. -/
structure ExecResult where
  success : Bool
  newOpportunityId : Option String
  newAttendeeId : Option String
  errorMessage : String
deriving DecidableEq

/-- The result payload of `executeCancellation`. -/
structure CancelResult where
  success : Bool
  opportunityId : Option String
  paymentId : Option String
  unappliedFundsId : Option String
  refundAmount : Option Int
  errorMessage : String
deriving DecidableEq

/-- The component's mutable state: one field per `@track` field the
claims depend on, plus the `@api recordId`.  Search-term and result-list
plumbing fields that no claim touches are omitted. -/
structure WizardState where
  recordId : Option String
  currentStep : String
  changeType : String
  isLoading : Bool
  isProcessing : Bool
  hasError : Bool
  errorMessage : String
  initData : InitData
  selectedProgram : Option ProgramRow
  programDetails : Option ProgramDetails
  newProgramFeeAmount : JsVal
  applyTransferFee : Bool
  transferFeeAmount : JsVal
  settlementType : String
  applyDiscount : Bool
  discountAmount : JsVal
  discountCode : String
  regChangeComments : String
  transferResult : Option ExecResult
  applyCancellationFee : Bool
  cancellationFeeAmount : JsVal
  cancelSettlementType : String
  cancelComments : String
  cancellationResult : Option CancelResult
  selectedContact : Option ContactHit
  applySubstitutionDiscount : Bool
  substitutionComments : String
  substitutionResult : Option ExecResult
deriving DecidableEq

/-- The initial state of a session: the `@track` initialisers of the
component, before `loadInitData` resolves. -/
def initialWizardState (recordId : Option String) : WizardState :=
  { recordId := recordId
    currentStep := "0"
    changeType := ""
    isLoading := true
    isProcessing := false
    hasError := false
    errorMessage := ""
    initData := InitData.empty
    selectedProgram := none
    programDetails := none
    newProgramFeeAmount := .num 0
    applyTransferFee := true
    transferFeeAmount := .num 0
    settlementType := ""
    applyDiscount := false
    discountAmount := .num 0
    discountCode := ""
    regChangeComments := ""
    transferResult := none
    applyCancellationFee := false
    cancellationFeeAmount := .num 0
    cancelSettlementType := ""
    cancelComments := ""
    cancellationResult := none
    selectedContact := none
    applySubstitutionDiscount := true
    substitutionComments := ""
    substitutionResult := none }

/-! ## Derived getters -/

namespace WizardState

/-- `get isStep0() { return this.currentStep === '0'; }` -/
def isStep0 (s : WizardState) : Bool := s.currentStep == "0"

/-- `get isTransferPath() { return this.changeType === 'Transfer'; }` -/
def isTransferPath (s : WizardState) : Bool := s.changeType == "Transfer"

/-- `get isCancellationPath()` -/
def isCancellationPath (s : WizardState) : Bool := s.changeType == "Cancellation"

/-- `get isSubstitutionPath()` -/
def isSubstitutionPath (s : WizardState) : Bool := s.changeType == "Substitution"

/-- `get isTransferStep1()` -/
def isTransferStep1 (s : WizardState) : Bool :=
  s.isTransferPath && s.currentStep == "1"

/-- `get isCancellationStep1()` -/
def isCancellationStep1 (s : WizardState) : Bool :=
  s.isCancellationPath && s.currentStep == "1"

/-- `get isCancellationStep2()` -/
def isCancellationStep2 (s : WizardState) : Bool :=
  s.isCancellationPath && s.currentStep == "2"

/-- `get isSubstitutionStep1()` -/
def isSubstitutionStep1 (s : WizardState) : Bool :=
  s.isSubstitutionPath && s.currentStep == "1"

/-- `get paymentStatus() { return this.initData?.originalOpp?.Payment_Status__c || 'N/A'; }` -/
def paymentStatus (s : WizardState) : String :=
  orFalsyS (s.initData.originalOpp.bind (·.Payment_Status)) "N/A"

/-- `get requiresSettlementScreen()`: the payment status is `'Paid'` or
`'Partial Payment'`. -/
def requiresSettlementScreen (s : WizardState) : Bool :=
  s.paymentStatus == "Paid" || s.paymentStatus == "Partial Payment"

/-- `get isBundledRegistration()`:
`this.initData?.originalOpp?.Has_Parent_Opportunity__c === 'Yes'`. -/
def isBundledRegistration (s : WizardState) : Bool :=
  (s.initData.originalOpp.bind (·.Has_Parent_Opportunity)) == some "Yes"

/-- `get cancellationRefundAmount()`:
`(this.initData?.originalOpp?.Amount || 0) − (applyCancellationFee ?
(Number(cancellationFeeAmount) || 0) : 0)`. -/
def cancellationRefundAmount (s : WizardState) : Int :=
  let oppAmount := orFalsyI (s.initData.originalOpp.bind (·.Amount)) 0
  let fee := if s.applyCancellationFee
    then orFalsyI (some s.cancellationFeeAmount.toNumber) 0 else 0
  oppAmount - fee

/-- `get netCreditAmount()`:
`(this.initData?.originalProgramFeeTotal || 0) − (applyTransferFee ?
(transferFeeAmount || 0) : 0)`. -/
def netCreditAmount (s : WizardState) : Int :=
  let originalFee := orFalsyI s.initData.originalProgramFeeTotal 0
  let transferFee := if s.applyTransferFee
    then (if s.transferFeeAmount.truthy then s.transferFeeAmount.toNumber else 0)
    else 0
  originalFee - transferFee

/-- `get hasOriginalDiscount()`:
`this.initData?.discountTotal && this.initData.discountTotal !== 0`. -/
def hasOriginalDiscount (s : WizardState) : Bool :=
  match s.initData.discountTotal with
  | some d => d != 0
  | none => false

/-- `get sameProgramTransfer()` -/
def sameProgramTransfer (s : WizardState) : Bool :=
  match s.selectedProgram, s.initData.attendee.bind (·.evt_Event) with
  | some prog, some ev => prog.Id == ev
  | _, _ => false

/-- `get attendeeName()` -/
def attendeeName (s : WizardState) : String :=
  match s.initData.attendee with
  | none => ""
  | some att =>
    let joined := (((att.evt_First_Name.getD "") ++ " " ++
      (att.evt_Last_Name.getD "")).trim)
    if joined = "" then att.Name else joined

end WizardState

/-- `CANCEL_SETTLEMENT_OPTIONS_PAID`: label/value pairs. -/
def CANCEL_SETTLEMENT_OPTIONS_PAID : List (String × String) :=
  [("Refund", "Refund"), ("Unapplied Funds", "Unapplied Funds")]

/-- `CANCEL_SETTLEMENT_OPTIONS_BUNDLE`: label/value pairs. -/
def CANCEL_SETTLEMENT_OPTIONS_BUNDLE : List (String × String) :=
  [("Apply to Remaining Balance", "Apply to Remaining Balance"),
   ("Refund", "Refund"), ("Unapplied Funds", "Unapplied Funds")]

namespace WizardState

/-- `get cancelSettlementOptions()`: the bundle list iff the registration
is bundled and the payment status is `'Partial Payment'`, else the paid
list. -/
def cancelSettlementOptions (s : WizardState) : List (String × String) :=
  if s.isBundledRegistration && s.paymentStatus == "Partial Payment" then
    CANCEL_SETTLEMENT_OPTIONS_BUNDLE
  else
    CANCEL_SETTLEMENT_OPTIONS_PAID

/-- `get disableNext()`: the Next-button disable decision. -/
def disableNext (s : WizardState) : Bool :=
  if s.isStep0 then
    s.changeType == ""
  else if s.isTransferStep1 then
    s.selectedProgram.isNone
  else if s.isCancellationStep1 then
    s.applyCancellationFee &&
      (!s.cancellationFeeAmount.truthy || s.cancellationFeeAmount.toNumber ≤ 0)
  else if s.isCancellationStep2 then
    s.cancelSettlementType == ""
  else if s.isSubstitutionStep1 then
    s.selectedContact.isNone
  else
    false

end WizardState

/-! ## Error extraction and toasts -/

/-- An abstract rendering of `JSON.stringify` on the modelled error
shape; the exact text is irrelevant to every claim (only that this raw
fallback is what is surfaced when no message field applies). -/
def jsonStringify : JsError → String
  | .str s => "\"" ++ s ++ "\""
  | .obj o =>
      "\x7b body: " ++
        (match o.body with
         | none => "undefined"
         | some b => match b.message with
           | none => "\x7b \x7d"
           | some m => "\x7b message: \"" ++ m ++ "\" \x7d") ++
      ", message: " ++
        (match o.message with
         | none => "undefined"
         | some m => "\"" ++ m ++ "\"") ++ " \x7d"

/-- `extractErrorMessage(error)`: a string error is returned verbatim;
else a truthy `error.body.message`, else a truthy `error.message`, else
the raw serialisation.  (A member holding the empty string is falsy and
falls through, exactly as `error?.body?.message` does.) -/
def extractErrorMessage : JsError → String
  | .str s => s
  | .obj o =>
    match o.body.bind (·.message) with
    | some m =>
      if m ≠ "" then m
      else match o.message with
        | some m2 => if m2 ≠ "" then m2 else jsonStringify (.obj o)
        | none => jsonStringify (.obj o)
    | none =>
      match o.message with
      | some m2 => if m2 ≠ "" then m2 else jsonStringify (.obj o)
      | none => jsonStringify (.obj o)

/-! ## Field-change and toggle handlers -/

namespace WizardState

/-- `handleFeeChange`: stores the input value in `newProgramFeeAmount`. -/
def handleFeeChange (s : WizardState) (v : JsVal) : WizardState :=
  { s with newProgramFeeAmount := v }

/-- `handleTransferFeeToggle`: records the checkbox; note that it does
not touch `transferFeeAmount`. -/
def handleTransferFeeToggle (s : WizardState) (checked : Bool) : WizardState :=
  { s with applyTransferFee := checked }

/-- `handleTransferFeeAmountChange` -/
def handleTransferFeeAmountChange (s : WizardState) (v : JsVal) : WizardState :=
  { s with transferFeeAmount := v }

/-- `handleSettlementChange` -/
def handleSettlementChange (s : WizardState) (v : String) : WizardState :=
  { s with settlementType := v }

/-- `handleDiscountToggle`: records the checkbox and, when unchecked,
zeroes `discountAmount` and clears `discountCode`. -/
def handleDiscountToggle (s : WizardState) (checked : Bool) : WizardState :=
  if checked then { s with applyDiscount := checked }
  else { s with applyDiscount := checked, discountAmount := .num 0, discountCode := "" }

/-- `handleDiscountAmountChange` -/
def handleDiscountAmountChange (s : WizardState) (v : JsVal) : WizardState :=
  { s with discountAmount := v }

/-- `handleDiscountCodeChange` -/
def handleDiscountCodeChange (s : WizardState) (v : String) : WizardState :=
  { s with discountCode := v }

/-- `handleCancelFeeToggle`: records the checkbox and, when unchecked,
zeroes `cancellationFeeAmount`. -/
def handleCancelFeeToggle (s : WizardState) (checked : Bool) : WizardState :=
  if checked then { s with applyCancellationFee := checked }
  else { s with applyCancellationFee := checked, cancellationFeeAmount := .num 0 }

/-- `handleCancelFeeAmountChange` -/
def handleCancelFeeAmountChange (s : WizardState) (v : JsVal) : WizardState :=
  { s with cancellationFeeAmount := v }

/-- `handleCancelSettlementChange` -/
def handleCancelSettlementChange (s : WizardState) (v : String) : WizardState :=
  { s with cancelSettlementType := v }

/-- `handleSubstitutionDiscountToggle`: `applySubstitutionDiscount =
(event.target.value === 'yes')`. -/
def handleSubstitutionDiscountToggle (s : WizardState) (v : String) : WizardState :=
  { s with applySubstitutionDiscount := v == "yes" }

end WizardState

/-! ## Validation -/

/-- JavaScript `String.prototype.trim()`: strip leading and trailing
whitespace.  Defined over the character list so that it evaluates by
kernel reduction (the library `String.trim` does not). -/
def jsTrim (c : String) : String :=
  String.mk (((c.data.dropWhile Char.isWhitespace).reverse.dropWhile
    Char.isWhitespace).reverse)

namespace WizardState

/-- `validateStep2()`: the Transfer step 2→3 validator.  Returns the
boolean result together with the toast emitted on failure. -/
def validateStep2 (s : WizardState) : Bool × Option Toast :=
  if s.newProgramFeeAmount = .empty then
    (false, some ⟨"Validation Error", "Please enter the new program fee amount.", "error"⟩)
  else if s.newProgramFeeAmount.toNumber < 0 then
    (false, some ⟨"Validation Error", "Program fee amount cannot be negative.", "error"⟩)
  else if s.applyDiscount then
    let hasAmount := s.discountAmount.truthy && s.discountAmount.toNumber > 0
    let hasCode := s.discountCode != "" && jsTrim s.discountCode != ""
    if !hasAmount && !hasCode then
      (false, some ⟨"Validation Error",
        "Please enter either a discount amount or a discount code.", "error"⟩)
    else (true, none)
  else (true, none)

/-! ## Program-detail load and navigation -/

/-- `loadProgramDetails()`: the collaborator response is the explicit
`resp` argument.  On success, seeds `newProgramFeeAmount` from the
looked-up expected fee with fallback to the catalog row then `0`
(JavaScript `||` chain), and `transferFeeAmount` from the fee-item unit
price when the fee-item is present.  On failure, the `catch` emits a
toast and swallows the error; the `finally` clears `isLoading` on both
paths. -/
def loadProgramDetails (s : WizardState) (resp : Except JsError ProgramDetails) :
    WizardState × List Toast :=
  match resp with
  | .ok pd =>
    let newFee := orFalsyI pd.expectedProgramFee
      (orFalsyI (s.selectedProgram.bind (·.Expected_Program_Fee)) 0)
    let newTransferFee := match pd.transferFeePBE with
      | some pbe => JsVal.num (orFalsyI pbe.UnitPrice 0)
      | none => s.transferFeeAmount
    ({ s with
        isLoading := false
        programDetails := some pd
        newProgramFeeAmount := .num newFee
        transferFeeAmount := newTransferFee }, [])
  | .error e =>
    ({ s with isLoading := false },
     [⟨"Error", "Failed to load program details: " ++ extractErrorMessage e, "error"⟩])

/-- `handleNext()`: the forward-navigation handler.  `lookup` is the
`getProgramDetails` response consumed only on the Transfer 1→2 edge. -/
def handleNext (s : WizardState) (lookup : Except JsError ProgramDetails) :
    WizardState × List Toast :=
  if s.currentStep = "0" then
    if s.changeType = "" then
      (s, [⟨"Error", "Please select a change type.", "error"⟩])
    else ({ s with currentStep := "1" }, [])
  else if s.isTransferPath then
    if s.currentStep = "1" then
      match s.selectedProgram with
      | none => (s, [⟨"Error", "Please select a program to transfer to.", "error"⟩])
      | some _ =>
        let r := loadProgramDetails s lookup
        ({ r.1 with currentStep := "2" }, r.2)
    else if s.currentStep = "2" then
      match validateStep2 s with
      | (true, _) => ({ s with currentStep := "3" }, [])
      | (false, t) => (s, t.toList)
    else (s, [])
  else if s.isCancellationPath then
    if s.currentStep = "1" then
      if s.applyCancellationFee &&
          (!s.cancellationFeeAmount.truthy || s.cancellationFeeAmount.toNumber ≤ 0) then
        (s, [⟨"Error", "Please enter a valid cancellation fee amount.", "error"⟩])
      else if s.requiresSettlementScreen then
        ({ s with currentStep := "2" }, [])
      else
        ({ s with currentStep := "3" }, [])
    else if s.currentStep = "2" then
      if s.cancelSettlementType = "" then
        (s, [⟨"Error", "Please select a settlement type.", "error"⟩])
      else ({ s with currentStep := "3" }, [])
    else (s, [])
  else if s.isSubstitutionPath then
    if s.currentStep = "1" then
      match s.selectedContact with
      | none => (s, [⟨"Error", "Please select a substitute contact.", "error"⟩])
      | some _ => ({ s with currentStep := "2" }, [])
    else (s, [])
  else (s, [])

/-- `handleBack()`: the back-navigation handler.  At step 3 on the
Cancellation path it recomputes `requiresSettlementScreen` to pick the
target step. -/
def handleBack (s : WizardState) : WizardState :=
  if s.currentStep = "1" then { s with currentStep := "0" }
  else if s.currentStep = "2" then { s with currentStep := "1" }
  else if s.currentStep = "3" then
    if s.isCancellationPath && !s.requiresSettlementScreen then
      { s with currentStep := "1" }
    else
      { s with currentStep := "2" }
  else s

end WizardState

/-! ## Request assembly and execute handlers -/

/-- The `executeTransfer` request object assembled by
`handleExecuteTransfer`. -/
structure TransferRequest where
  attendeeId : String
  originalOppId : String
  newSpecialEventId : String
  applyTransferFee : Bool
  transferFeeAmount : Int
  applyDiscount : Bool
  discountAmount : Int
  discountCode : String
  sameProgramTransfer : Bool
  newProgramFeeAmount : Int
  regChangeComments : String
deriving DecidableEq

/-- The `executeCancellation` request object assembled by
`handleExecuteCancellation`.  `settlementType` carries
`cancelSettlementType || null`. -/
structure CancellationRequest where
  attendeeId : String
  originalOppId : String
  applyCancellationFee : Bool
  cancellationFeeAmount : Int
  settlementType : Option String
  cancelComments : String
deriving DecidableEq

/-- The `executeSubstitution` request object assembled by
`handleExecuteSubstitution`. -/
structure SubstitutionRequest where
  attendeeId : String
  originalOppId : String
  substituteContactId : String
  applyDiscount : Bool
  substitutionComments : String
deriving DecidableEq

namespace WizardState

/-- `this.recordId || this.initData?.attendee?.Id`: the attendee
identifier resolution common to all three execute handlers. -/
def resolveAttendeeId (s : WizardState) : Option String :=
  match s.recordId with
  | some r => if r = "" then s.initData.attendee.map (·.Id) else some r
  | none => s.initData.attendee.map (·.Id)

/-- `!attendeeId || attendeeId === '' || attendeeId.length < 15`: the
identifier sanity check of the execute handlers. -/
def invalidAttendeeId : Option String → Bool
  | none => true
  | some sid => sid == "" || sid.length < 15

/-- The transfer request literal of `handleExecuteTransfer` (lines
776–788 of the component): every disabled amount is coerced to `0` (and
the discount code to `''`) at assembly time. -/
def buildTransferRequest (s : WizardState) (attendeeId : String)
    (opp : OriginalOpp) (prog : ProgramRow) : TransferRequest :=
  { attendeeId := attendeeId
    originalOppId := opp.Id
    newSpecialEventId := prog.Id
    applyTransferFee := s.applyTransferFee
    transferFeeAmount := if s.applyTransferFee then s.transferFeeAmount.toNumber else 0
    applyDiscount := s.applyDiscount
    discountAmount := if s.applyDiscount then s.discountAmount.toNumber else 0
    discountCode := if s.applyDiscount then s.discountCode else ""
    sameProgramTransfer := s.sameProgramTransfer
    newProgramFeeAmount := s.newProgramFeeAmount.toNumber
    regChangeComments := s.regChangeComments }

/-- The cancellation request literal of `handleExecuteCancellation`. -/
def buildCancellationRequest (s : WizardState) (attendeeId : String)
    (opp : OriginalOpp) : CancellationRequest :=
  { attendeeId := attendeeId
    originalOppId := opp.Id
    applyCancellationFee := s.applyCancellationFee
    cancellationFeeAmount :=
      if s.applyCancellationFee then s.cancellationFeeAmount.toNumber else 0
    settlementType :=
      if s.cancelSettlementType = "" then none else some s.cancelSettlementType
    cancelComments := s.cancelComments }

/-- The substitution request literal of `handleExecuteSubstitution`:
`applyDiscount: this.hasOriginalDiscount ? this.applySubstitutionDiscount
: false`. -/
def buildSubstitutionRequest (s : WizardState) (attendeeId : String)
    (opp : OriginalOpp) (contact : ContactHit) : SubstitutionRequest :=
  { attendeeId := attendeeId
    originalOppId := opp.Id
    substituteContactId := contact.id
    applyDiscount := if s.hasOriginalDiscount then s.applySubstitutionDiscount else false
    substitutionComments := s.substitutionComments }

/-- `handleExecuteTransfer()`.  `resp` is the `executeTransfer`
collaborator response (consumed only when the call is actually reached).
The handler sets `isProcessing` on entry and clears it on every exit
path: the early identifier return does so explicitly, all other paths
through the `finally`.  When `initData.originalOpp` or
`selectedProgram` is absent, the JavaScript dereference of a null member
raises a TypeError that the same `catch` turns into an error toast; its
host-defined text is abstracted as `"TypeError"` (no claim reads it). -/
def handleExecuteTransfer (s : WizardState) (resp : Except JsError ExecResult) :
    WizardState × List Toast :=
  let attendeeId := resolveAttendeeId s
  if invalidAttendeeId attendeeId then
    ({ s with isProcessing := false },
     [⟨"Error",
       "Unable to determine Attendee ID. recordId=" ++ (s.recordId.getD "undefined") ++
       ", initData.attendee.Id=" ++ ((s.initData.attendee.map (·.Id)).getD "undefined") ++
       ". Please refresh and try again.", "error"⟩])
  else
    match s.initData.originalOpp, s.selectedProgram with
    | some opp, some prog =>
      let _request := buildTransferRequest s (attendeeId.getD "") opp prog
      match resp with
      | .ok result =>
        if result.success then
          ({ s with
              transferResult := some result
              currentStep := "4"
              isProcessing := false },
           [⟨"Transfer Successful",
             s.attendeeName ++ " transferred to " ++ prog.Name, "success"⟩])
        else
          ({ s with isProcessing := false },
           [⟨"Transfer Failed", result.errorMessage, "error"⟩])
      | .error e =>
        ({ s with isProcessing := false },
         [⟨"Error", extractErrorMessage e, "error"⟩])
    | _, _ =>
      ({ s with isProcessing := false }, [⟨"Error", "TypeError", "error"⟩])

/-- `handleExecuteCancellation()`; same shape as the transfer handler. -/
def handleExecuteCancellation (s : WizardState) (resp : Except JsError CancelResult) :
    WizardState × List Toast :=
  let attendeeId := resolveAttendeeId s
  if invalidAttendeeId attendeeId then
    ({ s with isProcessing := false },
     [⟨"Error", "Unable to determine Attendee ID. Please refresh and try again.",
       "error"⟩])
  else
    match s.initData.originalOpp with
    | some opp =>
      let _request := buildCancellationRequest s (attendeeId.getD "") opp
      match resp with
      | .ok result =>
        if result.success then
          ({ s with
              cancellationResult := some result
              currentStep := "4"
              isProcessing := false },
           [⟨"Cancellation Successful",
             s.attendeeName ++ "\x27s registration has been cancelled.", "success"⟩])
        else
          ({ s with isProcessing := false },
           [⟨"Cancellation Failed", result.errorMessage, "error"⟩])
      | .error e =>
        ({ s with isProcessing := false },
         [⟨"Error", extractErrorMessage e, "error"⟩])
    | none =>
      ({ s with isProcessing := false }, [⟨"Error", "TypeError", "error"⟩])

/-- `handleExecuteSubstitution()`; note the explicit guard on
`selectedContact` before the request is assembled. -/
def handleExecuteSubstitution (s : WizardState) (resp : Except JsError ExecResult) :
    WizardState × List Toast :=
  let attendeeId := resolveAttendeeId s
  if invalidAttendeeId attendeeId then
    ({ s with isProcessing := false },
     [⟨"Error", "Unable to determine Attendee ID. Please refresh and try again.",
       "error"⟩])
  else
    match s.selectedContact with
    | none =>
      ({ s with isProcessing := false },
       [⟨"Error", "No substitute contact selected.", "error"⟩])
    | some contact =>
      match s.initData.originalOpp with
      | some opp =>
        let _request := buildSubstitutionRequest s (attendeeId.getD "") opp contact
        match resp with
        | .ok result =>
          if result.success then
            ({ s with
                substitutionResult := some result
                currentStep := "3"
                isProcessing := false },
             [⟨"Substitution Successful",
               s.attendeeName ++ " has been substituted with " ++ contact.name ++ ".",
               "success"⟩])
          else
            ({ s with isProcessing := false },
             [⟨"Substitution Failed", result.errorMessage, "error"⟩])
        | .error e =>
          ({ s with isProcessing := false },
           [⟨"Error", extractErrorMessage e, "error"⟩])
      | none =>
        ({ s with isProcessing := false }, [⟨"Error", "TypeError", "error"⟩])

end WizardState

/-! ## Concrete example states

Shared concrete data used by the witness and counterexample theorems
below.  `exState` is a session after a successful init load; the other
states are obtained from it by the handlers (or by explicit field
updates, noted where used). -/

/-- A loaded attendee with a valid 18-character identifier. -/
def exAttendee : Attendee :=
  { Id := "a0A000000000001AAA"
    Name := "J Doe"
    evt_First_Name := some "J"
    evt_Last_Name := some "Doe"
    evt_Event := some "evtCurrent" }

/-- A loaded originating Opportunity: amount 1000, payment status
`'Paid'`, not bundled. -/
def exOpp : OriginalOpp :=
  { Id := "opp000000000000001"
    Amount := some 1000
    Payment_Status := some "Paid"
    Has_Parent_Opportunity := some "No" }

/-- A loaded init payload: original fee total 800, prior discount 100. -/
def exInit : InitData :=
  { attendee := some exAttendee
    originalOpp := some exOpp
    discountTotal := some 100
    originalProgramFeeTotal := some 800 }

/-- A session at step 0 after a successful init load. -/
def exState : WizardState :=
  { initialWizardState (some "a0A000000000001AAA") with
      isLoading := false
      initData := exInit }

/-- `exState` with a bundled, partially paid originating record. -/
def exStateBundled : WizardState :=
  { exState with
      initData := { exInit with originalOpp := some { exOpp with
        Payment_Status := some "Partial Payment"
        Has_Parent_Opportunity := some "Yes" } } }

/-- `exState` with no payment status on the originating record (the
`paymentStatus` getter then yields `'N/A'`). -/
def exInitNA : InitData :=
  { exInit with originalOpp := some { exOpp with Payment_Status := none } }

/-- A catalog row for the transfer target program. -/
def exProgram : ProgramRow :=
  { Id := "evtTarget", Name := "Target Program", Expected_Program_Fee := some 500 }

/-- A contact hit for the substitution path. -/
def exContact : ContactHit := { id := "c001", name := "New Person" }

/-- The Cancellation path at step 1, payment status `'Paid'`. -/
def exCanStep1 : WizardState :=
  { exState with changeType := "Cancellation", currentStep := "1" }

/-- The Cancellation path at step 3, payment status `'Paid'`. -/
def exCanStep3 : WizardState :=
  { exCanStep1 with currentStep := "3" }

/-- `exCanStep3` with only the stored payment status changed (no other
field differs, and no field of `WizardState` records which steps were
visited). -/
def exCanStep3NA : WizardState :=
  { exCanStep3 with initData := exInitNA }

/-- The Transfer path at step 1 with a selected program. -/
def exTrStep1 : WizardState :=
  { exState with
      changeType := "Transfer"
      currentStep := "1"
      selectedProgram := some exProgram }

/-- The Transfer path at step 2 in the scenario-D configuration:
discount applied, amount 0, code empty. -/
def exTrStep2D : WizardState :=
  { exTrStep1 with
      currentStep := "2"
      newProgramFeeAmount := .num 600
      applyDiscount := true
      discountAmount := .num 0
      discountCode := "" }

/-- The Transfer path at step 3 (review), fee fields populated. -/
def exTrStep3 : WizardState :=
  { exTrStep1 with
      currentStep := "3"
      newProgramFeeAmount := .num 600
      transferFeeAmount := .num 100 }

/-- The Substitution path at its execute step with a selected contact. -/
def exSubStep2 : WizardState :=
  { exState with
      changeType := "Substitution"
      currentStep := "2"
      selectedContact := some exContact }

/-- Scenario A configuration: cancellation fee 50 applied. -/
def exScenA : WizardState :=
  { exState with applyCancellationFee := true, cancellationFeeAmount := .num 50 }

/-- Scenario B configuration: transfer fee 100 applied. -/
def exScenB1 : WizardState :=
  { exState with applyTransferFee := true, transferFeeAmount := .num 100 }

/-- Scenario B configuration: transfer fee 100 stored but not applied. -/
def exScenB2 : WizardState :=
  { exState with applyTransferFee := false, transferFeeAmount := .num 100 }

/-- A state with every apply flag off and non-zero raw amounts stored
(transfer fee 100, cancellation fee 50). -/
def exAllOff : WizardState :=
  { exScenB2 with
      applyCancellationFee := false
      cancellationFeeAmount := .num 50
      applyDiscount := false }

/-- The fault reaching `handleExecuteTransfer` in scenario E: an object
whose `body.message` is `"X"`. -/
def exErrX : JsError := .obj { body := some { message := some "X" }, message := none }

/-! ## Helper lemmas -/

/-- `x || 0` on a value that is definitely present: the identity. -/
theorem orFalsyI_some_zero (n : Int) : orFalsyI (some n) 0 = n := by
  unfold orFalsyI
  split <;> simp_all

/-- The `this.transferFeeAmount || 0` gate equals plain numeric
coercion on the values these fields hold. -/
theorem truthyGate_eq_toNumber (v : JsVal) :
    (if v.truthy then v.toNumber else 0) = v.toNumber := by
  cases v with
  | empty => simp [JsVal.truthy, JsVal.toNumber]
  | num n =>
    by_cases hn : n = 0 <;> simp [JsVal.truthy, JsVal.toNumber, hn]

/-! ## Claim theorems -/

/-- C4: the set of cancellation settlement options offered is exactly
{Apply to Remaining Balance, Refund, Unapplied Funds} when the
registration is bundled AND the payment status is 'Partial Payment', and
exactly {Refund, Unapplied Funds} in every other case. -/
theorem C4_settlement_options (s : WizardState) :
    (s.isBundledRegistration = true ∧ s.paymentStatus = "Partial Payment" →
      s.cancelSettlementOptions.map Prod.snd =
        ["Apply to Remaining Balance", "Refund", "Unapplied Funds"]) ∧
    (¬(s.isBundledRegistration = true ∧ s.paymentStatus = "Partial Payment") →
      s.cancelSettlementOptions.map Prod.snd = ["Refund", "Unapplied Funds"]) := by
  unfold WizardState.cancelSettlementOptions
  constructor
  · rintro ⟨hb, hp⟩
    rw [if_pos]
    · rfl
    · simp [hb, hp]
  · intro h
    rw [if_neg]
    · rfl
    · simp only [Bool.and_eq_true, beq_iff_eq]
      rintro ⟨hb, hp⟩
      exact h ⟨hb, hp⟩

/-- Witness for C4 at two concrete loaded sessions. -/
theorem C4_settlement_options_witness :
    exStateBundled.cancelSettlementOptions.map Prod.snd =
      ["Apply to Remaining Balance", "Refund", "Unapplied Funds"] ∧
    exState.cancelSettlementOptions.map Prod.snd = ["Refund", "Unapplied Funds"] :=
  ⟨(C4_settlement_options exStateBundled).1 ⟨rfl, rfl⟩,
   (C4_settlement_options exState).2 (by decide)⟩

/-- C6: the derived `cancellationRefundAmount` equals the originating
record's amount minus (`cancellationFeeAmount` if `applyCancellationFee`
is true, else 0). -/
theorem C6_cancellation_refund (s : WizardState) (opp : OriginalOpp) (a : Int)
    (h1 : s.initData.originalOpp = some opp) (h2 : opp.Amount = some a) :
    s.cancellationRefundAmount =
      a - (if s.applyCancellationFee = true then s.cancellationFeeAmount.toNumber else 0) := by
  have hAmt : s.initData.originalOpp.bind (·.Amount) = some a := by
    rw [h1]
    simpa using h2
  simp [WizardState.cancellationRefundAmount, hAmt, orFalsyI_some_zero]

/-- Scenario A of C6: amount 1000, fee applied, fee 50 → refund 950. -/
theorem C6_cancellation_refund_witness :
    exScenA.cancellationRefundAmount = 950 :=
  (C6_cancellation_refund exScenA exOpp 1000 rfl rfl).trans (by decide)

/-- C7: the derived `netCreditAmount` equals `originalProgramFeeTotal`
minus (`transferFeeAmount` if `applyTransferFee` is true, else 0). -/
theorem C7_net_credit (s : WizardState) (t : Int)
    (h : s.initData.originalProgramFeeTotal = some t) :
    s.netCreditAmount =
      t - (if s.applyTransferFee = true then s.transferFeeAmount.toNumber else 0) := by
  simp [WizardState.netCreditAmount, h, orFalsyI_some_zero, truthyGate_eq_toNumber]

/-- Scenario B of C7: fee total 800 with transfer fee 100 applied → 700;
with the fee not applied → 800. -/
theorem C7_net_credit_witness :
    exScenB1.netCreditAmount = 700 ∧ exScenB2.netCreditAmount = 800 :=
  ⟨(C7_net_credit exScenB1 800 rfl).trans (by decide),
   (C7_net_credit exScenB2 800 rfl).trans (by decide)⟩

/-- C10: the assembled substitution request carries `applyDiscount =
false` whenever the loaded original discount total is absent or zero,
regardless of the `applySubstitutionDiscount` toggle (whose initial
value is `true`); with a non-zero discount total it carries the toggle's
value. -/
theorem C10_substitution_discount_gate (s : WizardState) (attId : String)
    (opp : OriginalOpp) (c : ContactHit) :
    ((s.initData.discountTotal = none ∨ s.initData.discountTotal = some 0) →
      (s.buildSubstitutionRequest attId opp c).applyDiscount = false) ∧
    (∀ d : Int, s.initData.discountTotal = some d → d ≠ 0 →
      (s.buildSubstitutionRequest attId opp c).applyDiscount =
        s.applySubstitutionDiscount) ∧
    (initialWizardState s.recordId).applySubstitutionDiscount = true := by
  refine ⟨?_, ?_, rfl⟩
  · rintro (h | h) <;>
      simp [WizardState.buildSubstitutionRequest, WizardState.hasOriginalDiscount, h]
  · intro d hd hdne
    simp [WizardState.buildSubstitutionRequest, WizardState.hasOriginalDiscount, hd, hdne]

/-- Witness for C10: with discount total 0 the request says `false` even
though the toggle is `true`; with total 100 it follows the toggle. -/
theorem C10_substitution_discount_gate_witness :
    (WizardState.buildSubstitutionRequest
      { exSubStep2 with initData := { exInit with discountTotal := some 0 } }
      "a0A000000000001AAA" exOpp exContact).applyDiscount = false ∧
    (WizardState.buildSubstitutionRequest exSubStep2
      "a0A000000000001AAA" exOpp exContact).applyDiscount = true :=
  ⟨(C10_substitution_discount_gate
      { exSubStep2 with initData := { exInit with discountTotal := some 0 } }
      "a0A000000000001AAA" exOpp exContact).1 (Or.inr rfl),
   ((C10_substitution_discount_gate exSubStep2
      "a0A000000000001AAA" exOpp exContact).2.1 100 rfl (by decide)).trans rfl⟩

/-- C2 (amended): whenever an apply flag is false, the corresponding
amount contributes zero to every derived computation
(`cancellationRefundAmount`, `netCreditAmount`) and is sent as 0 (and
the discount code as `''`) in the assembled execute request, regardless
of the amount field's raw stored value; the discount and
cancellation-fee toggles also zero their stored amounts when unchecked,
but the transfer-fee toggle leaves `transferFeeAmount` unchanged in
storage. -/
theorem C2_disabled_amounts (s : WizardState) (attId : String) (opp : OriginalOpp)
    (prog : ProgramRow) :
    (s.applyTransferFee = false →
      s.netCreditAmount = orFalsyI s.initData.originalProgramFeeTotal 0 ∧
      (s.buildTransferRequest attId opp prog).transferFeeAmount = 0) ∧
    (s.applyDiscount = false →
      (s.buildTransferRequest attId opp prog).discountAmount = 0 ∧
      (s.buildTransferRequest attId opp prog).discountCode = "") ∧
    (s.applyCancellationFee = false →
      s.cancellationRefundAmount = orFalsyI (s.initData.originalOpp.bind (·.Amount)) 0 ∧
      (s.buildCancellationRequest attId opp).cancellationFeeAmount = 0) ∧
    (s.handleDiscountToggle false).discountAmount = JsVal.num 0 ∧
    (s.handleDiscountToggle false).discountCode = "" ∧
    (s.handleCancelFeeToggle false).cancellationFeeAmount = JsVal.num 0 ∧
    (s.handleTransferFeeToggle false).transferFeeAmount = s.transferFeeAmount := by
  refine ⟨?_, ?_, ?_, ?_, ?_, ?_, rfl⟩
  · intro h
    refine ⟨?_, ?_⟩
    · simp [WizardState.netCreditAmount, h]
    · simp [WizardState.buildTransferRequest, h]
  · intro h
    exact ⟨by simp [WizardState.buildTransferRequest, h],
           by simp [WizardState.buildTransferRequest, h]⟩
  · intro h
    refine ⟨?_, ?_⟩
    · simp [WizardState.cancellationRefundAmount, h]
    · simp [WizardState.buildCancellationRequest, h]
  · simp [WizardState.handleDiscountToggle]
  · simp [WizardState.handleDiscountToggle]
  · simp [WizardState.handleCancelFeeToggle]

/-- Witness for C2 (amended) at a concrete state with every apply flag
off and non-zero raw amounts stored. -/
theorem C2_disabled_amounts_witness :
    exAllOff.netCreditAmount = 800 ∧
    (WizardState.buildTransferRequest exAllOff
      "a0A000000000001AAA" exOpp exProgram).transferFeeAmount = 0 ∧
    (WizardState.buildCancellationRequest exAllOff
      "a0A000000000001AAA" exOpp).cancellationFeeAmount = 0 := by
  have h := C2_disabled_amounts exAllOff "a0A000000000001AAA" exOpp exProgram
  exact ⟨(h.1 rfl).1.trans (by decide), (h.1 rfl).2, (h.2.2.1 rfl).2⟩

/-- Counterexample to C2 as stated: unchecking the transfer-fee toggle
does not coerce the stored `transferFeeAmount` to 0.  Starting from a
state whose fee field was set to 100 by the amount-change handler,
unchecking the toggle leaves the raw stored value at 100 while the flag
is false (the derived values and the request nevertheless treat it as 0,
as the amended claim states). -/
theorem C2_storage_counterexample :
    ((exScenB1.handleTransferFeeAmountChange (.num 100)).handleTransferFeeToggle
        false).applyTransferFee = false ∧
    ((exScenB1.handleTransferFeeAmountChange (.num 100)).handleTransferFeeToggle
        false).transferFeeAmount = JsVal.num 100 ∧
    JsVal.num 100 ≠ JsVal.num 0 :=
  ⟨rfl, rfl, by decide⟩

/-- The disjunction the Cancellation step-1 gate tests on the stored fee
holds exactly when the fee is not a positive number. -/
theorem cancelFeeGate_decomp (v : JsVal) :
    (v.truthy = false ∨ v.toNumber ≤ 0) ↔
      (∀ n : Int, v = JsVal.num n → n ≤ 0) := by
  cases v with
  | empty => simp [JsVal.truthy, JsVal.toNumber]
  | num n =>
    simp only [JsVal.truthy, JsVal.toNumber, bne_eq_false_iff_eq, JsVal.num.injEq]
    constructor
    · rintro (h | h) <;> exact fun m hm => by omega
    · intro h
      exact Or.inr (h n rfl)

/-- The Cancellation step-1 gate expression denies exactly when the fee
flag is on but the stored fee is not a positive number. -/
theorem cancelFeeGate_iff (s : WizardState) :
    (s.applyCancellationFee &&
      (!s.cancellationFeeAmount.truthy || s.cancellationFeeAmount.toNumber ≤ 0)) = true ↔
    s.applyCancellationFee = true ∧
      (∀ n : Int, s.cancellationFeeAmount = JsVal.num n → n ≤ 0) := by
  cases hv : s.cancellationFeeAmount with
  | empty => simp [JsVal.truthy, JsVal.toNumber]
  | num n =>
    simp only [JsVal.truthy, JsVal.toNumber, Bool.and_eq_true, Bool.or_eq_true,
      Bool.not_eq_true', bne_eq_false_iff_eq, decide_eq_true_eq, JsVal.num.injEq]
    constructor
    · rintro ⟨ha, h | h⟩
      · exact ⟨ha, fun m hm => by omega⟩
      · exact ⟨ha, fun m hm => by omega⟩
    · rintro ⟨ha, h⟩
      exact ⟨ha, Or.inr (h n rfl)⟩

/-- C8: the Next-button disable decision denies forward navigation
exactly when: at step 0 no change type is selected; at Transfer step 1
no program is selected; at Cancellation step 1 the fee flag is on but
the stored fee is not a positive number (a false flag always passes); at
Cancellation step 2 no settlement type is selected; at Substitution
step 1 no contact is selected; and allows it everywhere else. -/
theorem C8_step_gate (s : WizardState) :
    s.disableNext = true ↔
      (s.currentStep = "0" ∧ s.changeType = "") ∨
      (s.changeType = "Transfer" ∧ s.currentStep = "1" ∧ s.selectedProgram = none) ∨
      (s.changeType = "Cancellation" ∧ s.currentStep = "1" ∧
        s.applyCancellationFee = true ∧
        (∀ n : Int, s.cancellationFeeAmount = JsVal.num n → n ≤ 0)) ∨
      (s.changeType = "Cancellation" ∧ s.currentStep = "2" ∧
        s.cancelSettlementType = "") ∨
      (s.changeType = "Substitution" ∧ s.currentStep = "1" ∧
        s.selectedContact = none) := by
  by_cases h0 : s.currentStep = "0" <;>
  by_cases h1 : s.currentStep = "1" <;>
  by_cases h2 : s.currentStep = "2" <;>
  by_cases hT : s.changeType = "Transfer" <;>
  by_cases hC : s.changeType = "Cancellation" <;>
  by_cases hS : s.changeType = "Substitution" <;>
  simp_all [WizardState.disableNext, WizardState.isStep0, WizardState.isTransferStep1,
    WizardState.isTransferPath, WizardState.isCancellationStep1,
    WizardState.isCancellationStep2, WizardState.isCancellationPath,
    WizardState.isSubstitutionStep1, WizardState.isSubstitutionPath,
    cancelFeeGate_iff, cancelFeeGate_decomp, Option.isNone_iff_eq_none]

/-- Witness for C8: the gate denies at step 0 with no change type
selected, and allows at Cancellation step 1 with the fee flag off. -/
theorem C8_step_gate_witness :
    exState.disableNext = true ∧ exCanStep1.disableNext ≠ true :=
  ⟨(C8_step_gate exState).mpr (Or.inl ⟨rfl, rfl⟩), by decide⟩

/-- C9: error text extraction follows the order string / `body.message`
/ `message` / raw serialisation; the execute handler leaves the step
unchanged on a fault and surfaces the extracted text; and `isProcessing`
is false on every exit path of the handler. -/
theorem C9_fault_handling (s : WizardState) (resp : Except JsError ExecResult)
    (e : JsError) :
    (s.handleExecuteTransfer resp).1.isProcessing = false ∧
    (∀ m : String, extractErrorMessage (.str m) = m) ∧
    (∀ o : ErrObj, ∀ m : String, o.body.bind ErrBody.message = some m → m ≠ "" →
      extractErrorMessage (.obj o) = m) ∧
    (∀ o : ErrObj, ∀ m : String,
      (o.body.bind ErrBody.message = none ∨ o.body.bind ErrBody.message = some "") →
      o.message = some m → m ≠ "" → extractErrorMessage (.obj o) = m) ∧
    (∀ o : ErrObj,
      (o.body.bind ErrBody.message = none ∨ o.body.bind ErrBody.message = some "") →
      (o.message = none ∨ o.message = some "") →
      extractErrorMessage (.obj o) = jsonStringify (.obj o)) ∧
    (WizardState.invalidAttendeeId s.resolveAttendeeId = false →
      s.initData.originalOpp.isSome = true → s.selectedProgram.isSome = true →
      (s.handleExecuteTransfer (.error e)).1.currentStep = s.currentStep ∧
      (s.handleExecuteTransfer (.error e)).2 =
        [⟨"Error", extractErrorMessage e, "error"⟩]) := by
  refine ⟨?_, fun m => rfl, ?_, ?_, ?_, ?_⟩
  · unfold WizardState.handleExecuteTransfer
    dsimp only
    split
    · rfl
    · split
      · cases resp with
        | ok r => by_cases hr : r.success = true <;> simp [hr]
        | error e2 => rfl
      · rfl
  · intro o m h hm
    simp [extractErrorMessage, h, hm]
  · intro o m hb hmsg hm
    rcases hb with hb | hb <;> simp [extractErrorMessage, hb, hmsg, hm]
  · intro o hb hmsg
    rcases hb with hb | hb <;> rcases hmsg with hmsg | hmsg <;>
      simp [extractErrorMessage, hb, hmsg]
  · intro hinv hOpp hProg
    obtain ⟨opp, hopp⟩ := Option.isSome_iff_exists.mp hOpp
    obtain ⟨prog, hprog⟩ := Option.isSome_iff_exists.mp hProg
    constructor <;> simp [WizardState.handleExecuteTransfer, hinv, hopp, hprog]

/-- Scenario E of C9: a fault with `body.message = "X"` surfaces exactly
`"X"`, the step stays at 3, and `isProcessing` ends false. -/
theorem C9_fault_handling_witness :
    (exTrStep3.handleExecuteTransfer (.error exErrX)).1.isProcessing = false ∧
    (exTrStep3.handleExecuteTransfer (.error exErrX)).2 = [⟨"Error", "X", "error"⟩] ∧
    (exTrStep3.handleExecuteTransfer (.error exErrX)).1.currentStep = "3" := by
  have h := C9_fault_handling exTrStep3 (.error exErrX) exErrX
  refine ⟨h.1, ?_, ?_⟩
  · have h2 := (h.2.2.2.2.2 rfl rfl rfl).2
    rw [h2]
    decide
  · have h3 := (h.2.2.2.2.2 rfl rfl rfl).1
    rw [h3]
    rfl


/-- The `hasAmount` test of `validateStep2` holds exactly when the
stored discount amount is a positive number. -/
theorem hasAmountGate (v : JsVal) :
    (v.truthy && decide (v.toNumber > 0)) = true ↔ 0 < v.toNumber := by
  cases v with
  | empty => simp [JsVal.truthy, JsVal.toNumber]
  | num n =>
    simp only [JsVal.truthy, JsVal.toNumber, Bool.and_eq_true, bne_iff_ne,
      decide_eq_true_eq, gt_iff_lt]
    constructor
    · rintro ⟨-, h⟩
      exact h
    · intro h
      exact ⟨by omega, h⟩

/-- The `hasCode` test of `validateStep2` holds exactly when the
discount code is non-blank after trimming. -/
theorem hasCodeGate (c : String) :
    (c != "" && jsTrim c != "") = true ↔ jsTrim c ≠ "" := by
  simp only [Bool.and_eq_true, bne_iff_ne, ne_eq]
  constructor
  · rintro ⟨-, h⟩
    exact h
  · intro h
    refine ⟨?_, h⟩
    intro hc
    subst hc
    exact h rfl

/-- `validateStep2` succeeds exactly when the new program fee is
present and non-negative and, if a discount is applied, a positive
discount amount or a non-blank discount code is present. -/
theorem validateStep2_true_iff (s : WizardState) :
    (s.validateStep2).1 = true ↔
      (s.newProgramFeeAmount ≠ JsVal.empty ∧
       0 ≤ s.newProgramFeeAmount.toNumber ∧
       (s.applyDiscount = true →
         0 < s.discountAmount.toNumber ∨ jsTrim s.discountCode ≠ "")) := by
  unfold WizardState.validateStep2
  by_cases hE : s.newProgramFeeAmount = JsVal.empty
  · simp [hE]
  · by_cases hNeg : s.newProgramFeeAmount.toNumber < 0
    · simp [hE, hNeg, not_le.mpr hNeg]
    · by_cases hD : s.applyDiscount = true
      · rw [if_neg hE, if_neg hNeg, if_pos hD]
        dsimp only
        cases hA : (s.discountAmount.truthy && (s.discountAmount.toNumber > 0 : Bool)) with
        | true =>
          simp [hE, not_lt.mp hNeg, hD]
          exact Or.inl ((hasAmountGate s.discountAmount).mp hA)
        | false =>
          cases hC : (s.discountCode != "" && jsTrim s.discountCode != "") with
          | true =>
            simp [hE, not_lt.mp hNeg, hD]
            exact Or.inr ((hasCodeGate s.discountCode).mp hC)
          | false =>
            simp [hE, not_lt.mp hNeg, hD]
            constructor
            · by_contra hpos
              simp only [not_le] at hpos
              simp [(hasAmountGate s.discountAmount).mpr hpos] at hA
            · rcases Bool.and_eq_false_iff.mp hC with h | h
              · have : s.discountCode = "" := by
                  simpa using h
                rw [this]
                rfl
              · simpa using h
      · simp [hE, hNeg, hD, not_lt.mp hNeg]

/-- A failing `validateStep2` always carries a toast. -/
theorem validateStep2_false_toast (s : WizardState) :
    (s.validateStep2).1 = false → (s.validateStep2).2.isSome = true := by
  unfold WizardState.validateStep2
  dsimp only
  split_ifs <;> simp

/-- C5: the Transfer step 2→3 transition validates that the new program
fee is present and non-negative and that, if a discount is applied, a
positive discount amount or a non-blank discount code is present; on
any validation failure a message is produced and the state (in
particular `currentStep`) is unchanged; on success the step advances
to 3. -/
theorem C5_transfer_step2_validation (s : WizardState)
    (lookup : Except JsError ProgramDetails)
    (h1 : s.changeType = "Transfer") (h2 : s.currentStep = "2") :
    ((s.validateStep2).1 = true ↔
      (s.newProgramFeeAmount ≠ JsVal.empty ∧
       0 ≤ s.newProgramFeeAmount.toNumber ∧
       (s.applyDiscount = true →
         0 < s.discountAmount.toNumber ∨ jsTrim s.discountCode ≠ ""))) ∧
    ((s.validateStep2).1 = false →
      (s.handleNext lookup).1 = s ∧ ∃ t : Toast, (s.handleNext lookup).2 = [t]) ∧
    ((s.validateStep2).1 = true → (s.handleNext lookup).1.currentStep = "3") := by
  refine ⟨validateStep2_true_iff s, ?_, ?_⟩
  · intro hfalse
    have htoast := validateStep2_false_toast s hfalse
    obtain ⟨t, ht⟩ := Option.isSome_iff_exists.mp htoast
    have hv : s.validateStep2 = (false, some t) := Prod.ext hfalse ht
    refine ⟨?_, ⟨t, ?_⟩⟩ <;>
      simp [WizardState.handleNext, h1, h2, WizardState.isTransferPath, hv]
  · intro htrue
    rcases hv0 : s.validateStep2 with ⟨b, topt⟩
    rw [hv0] at htrue
    simp only at htrue
    subst htrue
    simp [WizardState.handleNext, h1, h2, WizardState.isTransferPath, hv0]

/-- Scenario D of C5: `applyDiscount = true`, `discountAmount = 0`,
`discountCode = ""` blocks the 2→3 transition with a message and leaves
the state unchanged. -/
theorem C5_transfer_step2_validation_witness :
    (exTrStep2D.handleNext (Except.error (.str "x"))).1 = exTrStep2D ∧
    (exTrStep2D.handleNext (Except.error (.str "x"))).2 =
      [⟨"Validation Error",
        "Please enter either a discount amount or a discount code.", "error"⟩] := by
  have h := C5_transfer_step2_validation exTrStep2D (Except.error (.str "x")) rfl rfl
  have hfalse : (exTrStep2D.validateStep2).1 = false := by decide
  exact ⟨(h.2.1 hfalse).1, by decide⟩

/-- C3 (amended): the Transfer 1→2 transition runs the program-detail
lookup; on success it seeds `newProgramFeeAmount` from the looked-up
expected fee (falling back to the catalog row's fee, else 0) and seeds
`transferFeeAmount` from the fee-item unit price when the fee item is
present; on lookup failure an error toast is surfaced and the fee
fields are left unseeded, but the step still advances to step 2. -/
theorem C3_program_detail_seeding (s : WizardState) (prog : ProgramRow)
    (h1 : s.changeType = "Transfer") (h2 : s.currentStep = "1")
    (h3 : s.selectedProgram = some prog) :
    (∀ pd : ProgramDetails,
      (s.handleNext (.ok pd)).1.currentStep = "2" ∧
      (s.handleNext (.ok pd)).1.newProgramFeeAmount =
        JsVal.num (orFalsyI pd.expectedProgramFee
          (orFalsyI prog.Expected_Program_Fee 0)) ∧
      (∀ pbe : TransferFeePBE, pd.transferFeePBE = some pbe →
        (s.handleNext (.ok pd)).1.transferFeeAmount =
          JsVal.num (orFalsyI pbe.UnitPrice 0)) ∧
      (pd.transferFeePBE = none →
        (s.handleNext (.ok pd)).1.transferFeeAmount = s.transferFeeAmount)) ∧
    (∀ e : JsError,
      (s.handleNext (.error e)).2 =
        [⟨"Error", "Failed to load program details: " ++ extractErrorMessage e,
          "error"⟩] ∧
      (s.handleNext (.error e)).1.currentStep = "2" ∧
      (s.handleNext (.error e)).1.newProgramFeeAmount = s.newProgramFeeAmount ∧
      (s.handleNext (.error e)).1.transferFeeAmount = s.transferFeeAmount) := by
  constructor
  · intro pd
    refine ⟨?_, ?_, ?_, ?_⟩
    · simp [WizardState.handleNext, h1, h2, h3, WizardState.isTransferPath,
        WizardState.loadProgramDetails]
    · simp [WizardState.handleNext, h1, h2, h3, WizardState.isTransferPath,
        WizardState.loadProgramDetails]
    · intro pbe hpbe
      simp [WizardState.handleNext, h1, h2, h3, WizardState.isTransferPath,
        WizardState.loadProgramDetails, hpbe]
    · intro hnone
      simp [WizardState.handleNext, h1, h2, h3, WizardState.isTransferPath,
        WizardState.loadProgramDetails, hnone]
  · intro e
    refine ⟨?_, ?_, ?_, ?_⟩ <;>
      simp [WizardState.handleNext, h1, h2, h3, WizardState.isTransferPath,
        WizardState.loadProgramDetails]

/-- Witness for C3 (amended) at a concrete lookup success and failure. -/
theorem C3_program_detail_seeding_witness :
    (exTrStep1.handleNext (.ok ⟨some 600, some ⟨some 75⟩⟩)).1.currentStep = "2" ∧
    (exTrStep1.handleNext (.ok ⟨some 600, some ⟨some 75⟩⟩)).1.newProgramFeeAmount =
      JsVal.num 600 ∧
    (exTrStep1.handleNext (.ok ⟨some 600, some ⟨some 75⟩⟩)).1.transferFeeAmount =
      JsVal.num 75 ∧
    (exTrStep1.handleNext (.error (.str "boom"))).1.currentStep = "2" := by
  have h := C3_program_detail_seeding exTrStep1 exProgram rfl rfl rfl
  have h1 := (h.1 ⟨some 600, some ⟨some 75⟩⟩).1
  have h2 := (h.1 ⟨some 600, some ⟨some 75⟩⟩).2.1
  have h3 := (h.1 ⟨some 600, some ⟨some 75⟩⟩).2.2.1 ⟨some 75⟩ rfl
  have h4 := (h.2 (.str "boom")).2.1
  exact ⟨h1, by rw [h2]; decide, by rw [h3]; decide, h4⟩

/-- Counterexample to C3 as stated: when the program-detail lookup
fails, the error is surfaced but the step nevertheless advances to
step 2 (`loadProgramDetails` swallows the rejection in its own `catch`,
and `handleNext` sets `currentStep = '2'` unconditionally after
awaiting it). -/
theorem C3_failure_advances_counterexample :
    (exTrStep1.handleNext (Except.error (.str "boom"))).1.currentStep = "2" ∧
    (exTrStep1.handleNext (Except.error (.str "boom"))).2 =
      [⟨"Error", "Failed to load program details: boom", "error"⟩] ∧
    exTrStep1.currentStep = "1" := by
  refine ⟨by decide, by decide, rfl⟩

/-- At step 3, `handleBack` targets step 1 exactly when the Cancellation
path recomputes that no settlement screen is required, else step 2. -/
theorem handleBack_step3 (s : WizardState) (h : s.currentStep = "3") :
    (s.handleBack).currentStep =
      if (s.isCancellationPath && !s.requiresSettlementScreen) = true
      then "1" else "2" := by
  by_cases hq : (s.isCancellationPath && !s.requiresSettlementScreen) = true <;>
    simp [WizardState.handleBack, h, hq]

/-- C1 (amended): on the Cancellation path with a valid fee decision,
Next at step 1 advances to step 2 iff the payment status is 'Paid' or
'Partial Payment' and to step 3 otherwise; Back at step 3 returns to
step 2 iff the same recomputed condition holds, else to step 1.  The
controller recomputes `requiresSettlementScreen` at back time rather
than tracking a visited flag; since `handleNext` leaves `initData`
untouched, the recomputed condition agrees with the condition at
forward time, so the back target coincides with whether step 2 was
actually shown. -/
theorem C1_cancellation_path (s : WizardState)
    (lookup lookup2 : Except JsError ProgramDetails)
    (h1 : s.changeType = "Cancellation") (h2 : s.currentStep = "1")
    (h3 : (s.applyCancellationFee && (!s.cancellationFeeAmount.truthy ||
      s.cancellationFeeAmount.toNumber ≤ 0)) = false) :
    ((s.handleNext lookup).1.initData = s.initData) ∧
    (s.requiresSettlementScreen = true → (s.handleNext lookup).1.currentStep = "2") ∧
    (s.requiresSettlementScreen = false →
      (s.handleNext lookup).1.currentStep = "3" ∧
      ((s.handleNext lookup).1.handleBack).currentStep = "1") ∧
    (s.requiresSettlementScreen = true → s.cancelSettlementType ≠ "" →
      ((s.handleNext lookup).1.handleNext lookup2).1.currentStep = "3" ∧
      ((((s.handleNext lookup).1.handleNext lookup2).1.handleBack).currentStep = "2")) ∧
    (∀ s3 : WizardState, s3.changeType = "Cancellation" → s3.currentStep = "3" →
      (s3.handleBack).currentStep =
        (if s3.requiresSettlementScreen = true then "2" else "1")) := by
  have hBackAll : ∀ s3 : WizardState, s3.changeType = "Cancellation" →
      s3.currentStep = "3" →
      (s3.handleBack).currentStep =
        (if s3.requiresSettlementScreen = true then "2" else "1") := by
    intro s3 h31 h32
    rw [handleBack_step3 s3 h32]
    have hc : s3.isCancellationPath = true := by
      simp [WizardState.isCancellationPath, h31]
    rw [hc]
    by_cases hq : s3.requiresSettlementScreen = true
    · rw [hq]
      simp
    · have hqf : s3.requiresSettlementScreen = false := by simpa using hq
      rw [hqf]
      simp
  by_cases hreq : s.requiresSettlementScreen = true
  · have hN : (s.handleNext lookup).1 = { s with currentStep := "2" } := by
      simp [WizardState.handleNext, h1, h2, h3, WizardState.isTransferPath,
        WizardState.isCancellationPath, hreq]
    refine ⟨by rw [hN], fun _ => by rw [hN],
      fun hcon => absurd hreq (by simp [hcon]), fun _ hsel => ?_, hBackAll⟩
    have hN2 : ((s.handleNext lookup).1.handleNext lookup2).1 =
        { s with currentStep := "3" } := by
      rw [hN]
      simp [WizardState.handleNext, h1, WizardState.isTransferPath,
        WizardState.isCancellationPath, hsel]
    have hstep3 : ((s.handleNext lookup).1.handleNext lookup2).1.currentStep = "3" := by
      rw [hN2]
    have hc3 : ((s.handleNext lookup).1.handleNext lookup2).1.changeType =
        "Cancellation" := by
      rw [hN2]
      exact h1
    have hq3 : ((s.handleNext lookup).1.handleNext lookup2).1.requiresSettlementScreen =
        true := by
      rw [hN2]
      exact hreq
    refine ⟨hstep3, ?_⟩
    rw [hBackAll _ hc3 hstep3, hq3]
    simp
  · have hreqf : s.requiresSettlementScreen = false := by simpa using hreq
    have hN : (s.handleNext lookup).1 = { s with currentStep := "3" } := by
      simp [WizardState.handleNext, h1, h2, h3, WizardState.isTransferPath,
        WizardState.isCancellationPath, hreqf]
    have hstep3 : (s.handleNext lookup).1.currentStep = "3" := by rw [hN]
    have hc3 : (s.handleNext lookup).1.changeType = "Cancellation" := by
      rw [hN]
      exact h1
    have hq3 : (s.handleNext lookup).1.requiresSettlementScreen = false := by
      rw [hN]
      exact hreqf
    refine ⟨by rw [hN], fun hcon => absurd hcon hreq, fun _ => ⟨hstep3, ?_⟩,
      fun hcon => absurd hcon hreq, hBackAll⟩
    rw [hBackAll _ hc3 hstep3, hq3]
    simp

/-- Scenario C of C1: with payment status 'Paid' the sequence after
step 1 is step 2, and Back from step 3 (reached through step 2) returns
to step 2; with no payment status ('N/A') step 1 goes directly to
step 3 and Back returns to step 1. -/
theorem C1_cancellation_path_witness :
    ((({ exCanStep1 with cancelSettlementType := "Refund" } :
        WizardState).handleNext (.error (.str "x"))).1.currentStep = "2") ∧
    (((({ exCanStep1 with cancelSettlementType := "Refund" } :
        WizardState).handleNext (.error (.str "x"))).1.handleNext
          (.error (.str "x"))).1.currentStep = "3") ∧
    ((((({ exCanStep1 with cancelSettlementType := "Refund" } :
        WizardState).handleNext (.error (.str "x"))).1.handleNext
          (.error (.str "x"))).1.handleBack).currentStep = "2") ∧
    ((({ exCanStep1 with initData := exInitNA } :
        WizardState).handleNext (.error (.str "x"))).1.currentStep = "3") ∧
    (((({ exCanStep1 with initData := exInitNA } :
        WizardState).handleNext (.error (.str "x"))).1.handleBack).currentStep = "1") := by
  have hA := C1_cancellation_path
    { exCanStep1 with cancelSettlementType := "Refund" }
    (.error (.str "x")) (.error (.str "x")) rfl rfl rfl
  have hB := C1_cancellation_path
    { exCanStep1 with initData := exInitNA }
    (.error (.str "x")) (.error (.str "x")) rfl rfl rfl
  exact ⟨hA.2.1 rfl, (hA.2.2.2.1 rfl (by decide)).1, (hA.2.2.2.1 rfl (by decide)).2,
    (hB.2.2.1 rfl).1, (hB.2.2.1 rfl).2⟩

/-- Counterexample to C1 as stated: the controller does not track
whether step 2 was visited — `handleBack` recomputes the settlement
condition from the currently stored payment status.  `exCanStep3` and
`exCanStep3NA` are identical in every field except the stored payment
status inside `initData` (no field of `WizardState` records a visit),
yet Back from step 3 targets step 2 in one and step 1 in the other. -/
theorem C1_back_recomputes_counterexample :
    exCanStep3NA = { exCanStep3 with initData := exInitNA } ∧
    (exCanStep3.handleBack).currentStep = "2" ∧
    (exCanStep3NA.handleBack).currentStep = "1" :=
  ⟨rfl, by decide, by decide⟩
